import Mathlib

/-!
Shallow embedding of `src/simplejustwatchapi/query.py` from the
`simple-justwatch-python-api` repository.

Modelling conventions:
 - Python JSON values are modelled by the inductive type `Json` below.
   Numbers are modelled as integers (no claim depends on fractional values;
   numeric JSON values are only passed through, never computed with).
 - Python exceptions (`KeyError`, `TypeError`, `AttributeError`, failed
   `assert`, ...) are modelled as `Option.none` for the parsing functions,
   and as `Except.error msg` for the request builders, where the assertion
   message is part of the behaviour under scrutiny.
 - A Python `set` argument is modelled as the list of its elements in
   iteration order; iterating a set yields its elements in some order that
   the code does not control, so every theorem quantifies over that order.
 - `str.upper` is modelled character-wise with `Char.toUpper`, which agrees
   with Python on ASCII country codes.
-/

namespace JustWatch

/-- JSON values (and the Python objects produced from them by `json.loads`). -/
inductive Json where
  | null : Json
  | bool (b : Bool) : Json
  | num (n : Int) : Json
  | str (s : String) : Json
  | arr (elems : List Json) : Json
  | obj (fields : List (String × Json)) : Json

/-- Key lookup in an object; `none` when the key is absent or the value is
not an object. -/
def Json.lookup : Json → String → Option Json
  | .obj fields, k => (fields.find? (fun p => p.1 == k)).map Prod.snd
  | _, _ => none

/-- Python `d[k]`: succeeds only on a dict that has the key; anything else
raises, modelled as `none`. -/
def Json.getItem (j : Json) (k : String) : Option Json := j.lookup k

/-- Python `d.get(k, default)`: raises (modelled as `none`) unless `d` is a
dict; returns `default` when the key is absent. -/
def Json.dictGet (j : Json) (k : String) (default : Json) : Option Json :=
  match j with
  | .obj _ => some ((j.lookup k).getD default)
  | _ => none

/-- Python `k in d` for a dict `d` (the only case the claims exercise). -/
def Json.hasKey (j : Json) (k : String) : Bool :=
  match j with
  | .obj fields => fields.any (fun p => p.1 == k)
  | _ => false

/-- Iterating a Python value as a list; non-lists raise, modelled as `none`. -/
def Json.asArr : Json → Option (List Json)
  | .arr elems => some elems
  | _ => none

/-- Using a Python value as a string (string concatenation operand);
non-strings raise `TypeError`, modelled as `none`. -/
def Json.asStr : Json → Option String
  | .str s => some s
  | _ => none

/-- Python truthiness of a JSON value. -/
def Json.truthy : Json → Bool
  | .null => false
  | .bool b => b
  | .num n => n != 0
  | .str s => !s.isEmpty
  | .arr elems => !elems.isEmpty
  | .obj fields => !fields.isEmpty

/-- Python `str.upper`, character-wise (ASCII-faithful). -/
def strUpper (s : String) : String := ⟨s.data.map Char.toUpper⟩

/-- Python `sep.join(parts)`. -/
def joinSep (sep : String) : List String → String
  | [] => ""
  | [s] => s
  | s :: rest => s ++ sep ++ joinSep sep rest

def DETAILS_URL : String := "https://justwatch.com"

def IMAGES_URL : String := "https://images.justwatch.com"

/-- `_GRAPHQL_DETAILS_QUERY` (literal braces written as escapes). -/
def GRAPHQL_DETAILS_QUERY : String :=
  "\nquery GetTitleNode(\n  $nodeId: ID!,\n  $language: Language!,\n  $country: Country!,\n  $formatPoster: ImageFormat,\n  $formatOfferIcon: ImageFormat,\n  $profile: PosterProfile,\n  $backdropProfile: BackdropProfile,\n  $filter: OfferFilter!,\n) \x7b\n  node(id: $nodeId) \x7b\n    ...TitleDetails\n    __typename\n  \x7d\n  __typename\n\x7d\n"

/-- `_GRAPHQL_SEARCH_QUERY`. -/
def GRAPHQL_SEARCH_QUERY : String :=
  "\nquery GetSearchTitles(\n  $searchTitlesFilter: TitleFilter!,\n  $country: Country!,\n  $language: Language!,\n  $first: Int!,\n  $formatPoster: ImageFormat,\n  $formatOfferIcon: ImageFormat,\n  $profile: PosterProfile,\n  $backdropProfile: BackdropProfile,\n  $filter: OfferFilter!,\n) \x7b\n  popularTitles(\n    country: $country\n    filter: $searchTitlesFilter\n    first: $first\n    sortBy: POPULAR\n    sortRandomSeed: 0\n  ) \x7b\n    edges \x7b\n      node \x7b\n        ...TitleDetails\n        __typename\n      \x7d\n      __typename\n    \x7d\n    __typename\n  \x7d\n\x7d\n"

/-- `_GRAPHQL_DETAILS_FRAGMENT`. -/
def GRAPHQL_DETAILS_FRAGMENT : String :=
  "\nfragment TitleDetails on MovieOrShow \x7b\n  id\n  objectId\n  objectType\n  content(country: $country, language: $language) \x7b\n    title\n    fullPath\n    originalReleaseYear\n    originalReleaseDate\n    runtime\n    shortDescription\n    genres \x7b\n      shortName\n      __typename\n    \x7d\n    externalIds \x7b\n      imdbId\n      __typename\n    \x7d\n    posterUrl(profile: $profile, format: $formatPoster)\n    backdrops(profile: $backdropProfile, format: $formatPoster) \x7b\n      backdropUrl\n      __typename\n    \x7d\n    __typename\n  \x7d\n  offers(country: $country, platform: WEB, filter: $filter) \x7b\n    ...TitleOffer\n  \x7d\n  __typename\n\x7d\n"

/-- `_GRAPHQL_OFFER_FRAGMENT`. -/
def GRAPHQL_OFFER_FRAGMENT : String :=
  "\nfragment TitleOffer on Offer \x7b\n  id\n  monetizationType\n  presentationType\n  retailPrice(language: $language)\n  retailPriceValue\n  currency\n  lastChangeRetailPriceValue\n  type\n  package \x7b\n    id\n    packageId\n    clearName\n    technicalName\n    icon(profile: S100, format: $formatOfferIcon)\n    __typename\n  \x7d\n  standardWebURL\n  elementCount\n  availableTo\n  deeplinkRoku: deeplinkURL(platform: ROKU_OS)\n  subtitleLanguages\n  videoTechnology\n  audioTechnology\n  audioLanguages\n  __typename\n\x7d\n"

/-- `_GRAPHQL_COUNTRY_OFFERS_ENTRY.format(country_code=code)`: the template
with both placeholder holes filled and `\x7b\x7b`/`\x7d\x7d` unescaped. -/
def GRAPHQL_COUNTRY_OFFERS_ENTRY (country_code : String) : String :=
  "\n      " ++ country_code ++ ": offers(country: " ++ country_code ++
    ", platform: WEB, filter: $filter) \x7b\n        ...TitleOffer\n        __typename\n      \x7d\n"

/-- `_GRAPHQL_OFFERS_BY_COUNTRY_QUERY.format(country_entries=entries)`. -/
def GRAPHQL_OFFERS_BY_COUNTRY_QUERY (country_entries : String) : String :=
  "\nquery GetTitleOffers(\n  $nodeId: ID!,\n  $language: Language!,\n  $formatOfferIcon: ImageFormat,\n  $filter: OfferFilter!,\n) \x7b\n  node(id: $nodeId) \x7b\n    ... on MovieOrShow \x7b\n      " ++
    country_entries ++
    "\n      __typename\n    \x7d\n    __typename\n  \x7d\n  __typename\n\x7d\n"

/-- The message of the assertion in `_assert_country_code_is_valid`. -/
def invalid_country_message (code : String) : String :=
  "Invalid country code: " ++ code ++ ", code must be 2 characters long"

/-- The message of the empty-countries assertion in
`prepare_offers_for_countries_request`. -/
def empty_countries_message : String :=
  "Cannot prepare offers request without specified countries"

/-- `_assert_country_code_is_valid`. -/
def assert_country_code_is_valid (code : String) : Except String Unit :=
  if code.length = 2 then .ok () else .error (invalid_country_message code)

/-- `prepare_search_request`. -/
def prepare_search_request (title country language : String) (count : Int)
    (best_only : Bool) : Except String Json :=
  match assert_country_code_is_valid country with
  | .error e => .error e
  | .ok _ => .ok (.obj
    [("operationName", .str "GetSearchTitles"),
     ("variables", .obj
       [("first", .num count),
        ("searchTitlesFilter", .obj [("searchQuery", .str title)]),
        ("language", .str language),
        ("country", .str (strUpper country)),
        ("formatPoster", .str "JPG"),
        ("formatOfferIcon", .str "PNG"),
        ("profile", .str "S718"),
        ("backdropProfile", .str "S1920"),
        ("filter", .obj [("bestOnly", .bool best_only)])]),
     ("query", .str (GRAPHQL_SEARCH_QUERY ++ GRAPHQL_DETAILS_FRAGMENT ++ GRAPHQL_OFFER_FRAGMENT))])

/-- `prepare_details_request`. -/
def prepare_details_request (node_id country language : String)
    (best_only : Bool) : Except String Json :=
  match assert_country_code_is_valid country with
  | .error e => .error e
  | .ok _ => .ok (.obj
    [("operationName", .str "GetTitleNode"),
     ("variables", .obj
       [("nodeId", .str node_id),
        ("language", .str language),
        ("country", .str (strUpper country)),
        ("formatPoster", .str "JPG"),
        ("formatOfferIcon", .str "PNG"),
        ("profile", .str "S718"),
        ("backdropProfile", .str "S1920"),
        ("filter", .obj [("bestOnly", .bool best_only)])]),
     ("query", .str (GRAPHQL_DETAILS_QUERY ++ GRAPHQL_DETAILS_FRAGMENT ++ GRAPHQL_OFFER_FRAGMENT))])

/-- `_prepare_offers_for_countries_entry`; `countries` is the set in
iteration order. -/
def prepare_offers_for_countries_entry (countries : List String) : String :=
  let offer_requests := countries.map (fun c => GRAPHQL_COUNTRY_OFFERS_ENTRY (strUpper c))
  GRAPHQL_OFFERS_BY_COUNTRY_QUERY (joinSep "\n" offer_requests) ++ GRAPHQL_OFFER_FRAGMENT

/-- The validation loop of `prepare_offers_for_countries_request`:
`for country in countries: _assert_country_code_is_valid(country)`. -/
def assert_all_country_codes : List String → Except String Unit
  | [] => .ok ()
  | country :: rest =>
    match assert_country_code_is_valid country with
    | .error e => .error e
    | .ok _ => assert_all_country_codes rest

/-- `prepare_offers_for_countries_request`; `countries` is the set in
iteration order. -/
def prepare_offers_for_countries_request (node_id : String) (countries : List String)
    (language : String) (best_only : Bool) : Except String Json :=
  if countries.isEmpty then
    .error empty_countries_message
  else
    match assert_all_country_codes countries with
    | .error e => .error e
    | .ok _ => .ok (.obj
      [("operationName", .str "GetTitleOffers"),
       ("variables", .obj
         [("nodeId", .str node_id),
          ("language", .str language),
          ("formatPoster", .str "JPG"),
          ("formatOfferIcon", .str "PNG"),
          ("profile", .str "S718"),
          ("backdropProfile", .str "S1920"),
          ("filter", .obj [("bestOnly", .bool best_only)])]),
       ("query", .str (prepare_offers_for_countries_entry countries))])

/-- `OfferPackage`; raw pass-through fields keep their `Json` value
(Python stores whatever `json.get` returned, `None` being `Json.null`). -/
structure OfferPackage where
  id : Json
  package_id : Json
  name : Json
  technical_name : Json
  icon : String

/-- `Offer`. -/
structure Offer where
  id : Json
  monetization_type : Json
  presentation_type : Json
  price_string : Json
  price_value : Json
  price_currency : Json
  last_change_retail_price_value : Json
  type : Json
  package : OfferPackage
  url : Json
  element_count : Json
  available_to : Json
  deeplink_roku : Json
  subtitle_languages : Json
  video_technology : Json
  audio_technology : Json
  audio_languages : Json

/-- `MediaEntry`. -/
structure MediaEntry where
  entry_id : Json
  object_id : Json
  object_type : Json
  title : Json
  url : String
  release_year : Json
  release_date : Json
  runtime_minutes : Json
  short_description : Json
  genres : List Json
  imdb_id : Json
  poster : Option String
  backdrops : List String
  offers : List Offer

/-- `_parse_package`. -/
def parse_package (j : Json) : Option OfferPackage := do
  let id ← j.dictGet "id" .null
  let package_id ← j.dictGet "packageId" .null
  let name ← j.dictGet "clearName" .null
  let technical_name ← j.dictGet "technicalName" .null
  let iconField ← j.dictGet "icon" .null
  let iconPath ← iconField.asStr
  pure ⟨id, package_id, name, technical_name, IMAGES_URL ++ iconPath⟩

/-- `_parse_offer`, one applicative slot per line of the source function
(over `Option`, the sequential reads of the source and this applicative
chain fail and succeed identically). -/
def parse_offer (j : Json) : Option Offer :=
  Offer.mk <$> j.dictGet "id" .null
    <*> j.dictGet "monetizationType" .null
    <*> j.dictGet "presentationType" .null
    <*> j.dictGet "retailPrice" .null
    <*> j.dictGet "retailPriceValue" .null
    <*> j.dictGet "currency" .null
    <*> j.dictGet "lastChangeRetailPriceValue" .null
    <*> j.dictGet "type" .null
    <*> (j.getItem "package" >>= parse_package)
    <*> j.dictGet "standardWebURL" .null
    <*> j.dictGet "elementCount" (.num 0)
    <*> j.dictGet "availableTo" .null
    <*> j.dictGet "deeplinkRoku" .null
    <*> j.dictGet "subtitleLanguages" .null
    <*> j.dictGet "videoTechnology" .null
    <*> j.dictGet "audioTechnology" .null
    <*> j.dictGet "audioLanguages" .null

/-- The `genres` comprehension of `_parse_entry`:
`[node.get("shortName") for node in <genres field> if node]` (iterating a
non-list raises). -/
def parse_genres (genresField : Json) : Option (List Json) := do
  let nodes ← genresField.asArr
  (nodes.filter Json.truthy).mapM (fun node => node.dictGet "shortName" .null)

/-- The `imdb_id` line of `_parse_entry`:
`external_ids.get("imdbId") if external_ids else None`. -/
def parse_imdb_id (external_ids : Json) : Option Json :=
  if external_ids.truthy then external_ids.dictGet "imdbId" .null else some .null

/-- The `poster` line of `_parse_entry`:
`_IMAGES_URL + poster_url_field if poster_url_field else None` (the string
concatenation raises on a truthy non-string). -/
def parse_poster (posterField : Json) : Option (Option String) :=
  if posterField.truthy then (posterField.asStr).map (fun s => some (IMAGES_URL ++ s))
  else some none

/-- The `backdrops` comprehension of `_parse_entry`:
`[_IMAGES_URL + bd.get("backdropUrl") for bd in <backdrops field> if bd]`. -/
def parse_backdrops (backdropsField : Json) : Option (List String) := do
  let nodes ← backdropsField.asArr
  (nodes.filter Json.truthy).mapM (fun bd => do
    let urlField ← bd.dictGet "backdropUrl" .null
    let s ← urlField.asStr
    pure (IMAGES_URL ++ s))

/-- The `offers` comprehension of `_parse_entry`:
`[_parse_offer(offer) for offer in json.get("offers", []) if offer]`. -/
def parse_offers_list (offersField : Json) : Option (List Offer) := do
  let nodes ← offersField.asArr
  (nodes.filter Json.truthy).mapM parse_offer

/-- `_parse_entry`, one applicative slot per field of the source function
(over `Option`, the sequential reads of the source and this applicative
chain fail and succeed identically). -/
def parse_entry (j : Json) : Option MediaEntry := do
  let content ← j.getItem "content"
  MediaEntry.mk <$> j.dictGet "id" .null
    <*> j.dictGet "objectId" .null
    <*> j.dictGet "objectType" .null
    <*> content.dictGet "title" .null
    <*> (content.dictGet "fullPath" .null >>= fun p => (p.asStr).map (fun s => DETAILS_URL ++ s))
    <*> content.dictGet "originalReleaseYear" .null
    <*> content.dictGet "originalReleaseDate" .null
    <*> content.dictGet "runtime" .null
    <*> content.dictGet "shortDescription" .null
    <*> (content.dictGet "genres" (.arr []) >>= parse_genres)
    <*> (content.dictGet "externalIds" .null >>= parse_imdb_id)
    <*> (content.dictGet "posterUrl" .null >>= parse_poster)
    <*> (content.dictGet "backdrops" (.arr []) >>= parse_backdrops)
    <*> (j.dictGet "offers" (.arr []) >>= parse_offers_list)

/-- `parse_search_response`. -/
def parse_search_response (j : Json) : Option (List MediaEntry) := do
  let dataField ← j.getItem "data"
  let popularTitles ← dataField.getItem "popularTitles"
  let edgesField ← popularTitles.getItem "edges"
  let edges ← edgesField.asArr
  edges.mapM (fun edge => do
    let node ← edge.getItem "node"
    parse_entry node)

/-- `parse_details_response`; the outer `Option` models exceptions, the
inner one Python `None`. -/
def parse_details_response (j : Json) : Option (Option MediaEntry) :=
  if j.hasKey "errors" then some none
  else
    (do
      let dataField ← j.getItem "data"
      let node ← dataField.getItem "node"
      parse_entry node).map some

/-- One entry of the dict comprehension of `parse_offers_for_countries_response`:
`country: list(map(_parse_offer, offers_node.get(country.upper(), [])))`. -/
def parse_offers_for_country (offers_node : Json) (country : String) :
    Option (String × List Offer) := do
  let field ← offers_node.dictGet (strUpper country) (.arr [])
  let offersList ← field.asArr
  let offers ← offersList.mapM parse_offer
  pure (country, offers)

/-- `parse_offers_for_countries_response`; `countries` is the set in
iteration order. -/
def parse_offers_for_countries_response (j : Json) (countries : List String) :
    Option (List (String × List Offer)) := do
  let dataField ← j.getItem "data"
  let offers_node ← dataField.getItem "node"
  countries.mapM (parse_offers_for_country offers_node)

/-- Number of positions (the end of the string included) at which `p`
occurs as a contiguous substring. -/
def countOccur (p : List Char) : List Char → Nat
  | [] => if p.isPrefixOf ([] : List Char) then 1 else 0
  | c :: rest => (if p.isPrefixOf (c :: rest) then 1 else 0) + countOccur p rest

/-- `countOccur` on strings. -/
def countOccurStr (p s : String) : Nat := countOccur p.data s.data

/-- Index of the first occurrence of `p` as a contiguous substring. -/
def firstOccurIdx (p : List Char) : List Char → Option Nat
  | [] => if p.isPrefixOf ([] : List Char) then some 0 else none
  | c :: rest =>
    if p.isPrefixOf (c :: rest) then some 0 else (firstOccurIdx p rest).map (· + 1)

/-- `firstOccurIdx` on strings. -/
def firstOccurIdxStr (p s : String) : Option Nat := firstOccurIdx p.data s.data

/-- The aliased offers block emitted for an (already upper-cased) country
code: the text `CODE: offers(country: CODE, platform: WEB, filter: $filter)`. -/
def alias_block (code : String) : String :=
  code ++ ": offers(country: " ++ code ++ ", platform: WEB, filter: $filter)"

/-- A minimal offer document: only the mandatory `package` object (with an
icon path) is present; every optional scalar field is absent. -/
def sample_offer_json : Json :=
  .obj [("package", .obj [("icon", .str "/icon.png")])]

/-- The normalization of `sample_offer_json`. -/
def sample_offer : Offer :=
  ⟨.null, .null, .null, .null, .null, .null, .null, .null,
    ⟨.null, .null, .null, .null, "https://images.justwatch.com/icon.png"⟩,
    .null, .num 0, .null, .null, .null, .null, .null, .null⟩

end JustWatch

namespace JustWatch

/-! Helper lemmas. -/

/-- `strUpper` preserves length. -/
theorem strUpper_length (s : String) : (strUpper s).length = s.length := by
  show (s.data.map Char.toUpper).length = s.data.length
  exact List.length_map _ _

/-- The characters of a country entry block, decomposed around the two code
holes. -/
theorem country_entry_data (c : String) :
    (GRAPHQL_COUNTRY_OFFERS_ENTRY c).data =
      "\n      ".data ++ c.data ++ ": offers(country: ".data ++ c.data ++
        ", platform: WEB, filter: $filter) \x7b\n        ...TitleOffer\n        __typename\n      \x7d\n".data := by
  simp [GRAPHQL_COUNTRY_OFFERS_ENTRY, String.data_append]

/-- Length of a country entry block. -/
theorem country_entry_data_length (c : String) :
    (GRAPHQL_COUNTRY_OFFERS_ENTRY c).data.length = 110 + 2 * c.data.length := by
  have h7 : ("\n      " : String).data.length = 7 := by decide
  have h18 : (": offers(country: " : String).data.length = 18 := by decide
  have h85 : (", platform: WEB, filter: $filter) \x7b\n        ...TitleOffer\n        __typename\n      \x7d\n" : String).data.length = 85 := by decide
  simp [country_entry_data, List.length_append, h7, h18, h85]
  omega

/-- The country entry template is injective in the code. -/
theorem country_entry_inj : Function.Injective GRAPHQL_COUNTRY_OFFERS_ENTRY := by
  intro c1 c2 h
  have hd := congrArg String.data h
  rw [country_entry_data, country_entry_data] at hd
  have hlen : c1.data.length = c2.data.length := by
    have hl := congrArg List.length hd
    simp only [List.length_append] at hl
    omega
  simp only [List.append_assoc] at hd
  have h1 := List.append_cancel_left hd
  have h2 := (List.append_inj h1 hlen).1
  exact String.ext h2

/-- A pattern longer than the searched string never occurs in it. -/
theorem countOccur_eq_zero_of_lt (p : List Char) :
    ∀ s : List Char, s.length < p.length → countOccur p s = 0 := by
  intro s
  induction s with
  | nil =>
    intro hlt
    cases p with
    | nil => simp at hlt
    | cons a as => simp [countOccur, List.isPrefixOf]
  | cons c rest ih =>
    intro hlt
    rw [List.length_cons] at hlt
    have hnot : p.isPrefixOf (c :: rest) = false := by
      cases hpv : p.isPrefixOf (c :: rest) with
      | false => rfl
      | true =>
        have hle := (List.isPrefixOf_iff_prefix.mp hpv).length_le
        rw [List.length_cons] at hle
        omega
    have hr : rest.length < p.length := by omega
    simp [countOccur, hnot, ih hr]

/-- Every element of the joined list occurs contiguously in the join. -/
theorem joinSep_mem_decomp (sep : String) :
    ∀ (l : List String) (s : String), s ∈ l → ∃ a b, joinSep sep l = a ++ (s ++ b) := by
  intro l
  induction l with
  | nil => intro s hs; simp at hs
  | cons x xs ih =>
    intro s hs
    rcases List.mem_cons.mp hs with hsx | hsxs
    · subst hsx
      cases xs with
      | nil =>
        refine ⟨"", "", ?_⟩
        apply String.ext
        simp [joinSep, String.data_append]
      | cons y ys =>
        refine ⟨"", sep ++ joinSep sep (y :: ys), ?_⟩
        apply String.ext
        simp [joinSep, String.data_append, List.append_assoc]
    · have hxs : xs ≠ [] := List.ne_nil_of_mem hsxs
      obtain ⟨a, b, hab⟩ := ih s hsxs
      refine ⟨x ++ sep ++ a, b, ?_⟩
      cases xs with
      | nil => exact absurd rfl hxs
      | cons y ys =>
        apply String.ext
        have hd := congrArg String.data hab
        simp [String.data_append] at hd
        simp [joinSep, String.data_append, hd, List.append_assoc]

/-- `_assert_country_code_is_valid` succeeds exactly on length-2 codes. -/
theorem assert_ok_of_len2 (code : String) (h : code.length = 2) :
    assert_country_code_is_valid code = .ok () := by
  simp [assert_country_code_is_valid, h]

/-- `_assert_country_code_is_valid` fails with the documented message. -/
theorem assert_error_of_len_ne2 (code : String) (h : code.length ≠ 2) :
    assert_country_code_is_valid code = .error (invalid_country_message code) := by
  simp [assert_country_code_is_valid, h]

/-- The validation loop succeeds when every code has length 2. -/
theorem assert_all_ok (cs : List String) (h : ∀ c ∈ cs, c.length = 2) :
    assert_all_country_codes cs = .ok () := by
  induction cs with
  | nil => rfl
  | cons x xs ih =>
    have hx := h x (List.mem_cons_self x xs)
    simp [assert_all_country_codes, assert_ok_of_len2 x hx]
    exact ih (fun c hc => h c (List.mem_cons_of_mem x hc))

/-- The validation loop stops at the first invalid code with its message. -/
theorem assert_all_error (code : String) (h : code.length ≠ 2) :
    ∀ (pre post : List String), (∀ c ∈ pre, c.length = 2) →
      assert_all_country_codes (pre ++ code :: post)
        = .error (invalid_country_message code) := by
  intro pre
  induction pre with
  | nil =>
    intro post _
    simp [assert_all_country_codes, assert_error_of_len_ne2 code h]
  | cons x xs ih =>
    intro post hpre
    have hx := hpre x (List.mem_cons_self x xs)
    simp [assert_all_country_codes, assert_ok_of_len2 x hx]
    exact ih post (fun c hc => hpre c (List.mem_cons_of_mem x hc))

/-- The two validation messages of the offers builder are different. -/
theorem invalid_message_ne_empty_message (code : String) :
    invalid_country_message code ≠ empty_countries_message := by
  intro h
  have hd := congrArg String.data h
  rw [show invalid_country_message code
      = "Invalid country code: " ++ (code ++ ", code must be 2 characters long") by
    simp [invalid_country_message, String.append_assoc]] at hd
  rw [String.data_append] at hd
  rw [show ("Invalid country code: " : String).data
      = 'I' :: "nvalid country code: ".data from rfl] at hd
  rw [show (empty_countries_message).data
      = 'C' :: "annot prepare offers request without specified countries".data from rfl] at hd
  simp [List.cons_append, List.cons.injEq] at hd

/-- `_parse_offer` on a dict: every scalar field is the raw `get` result
and the offer is produced exactly when the package part parses. -/
theorem parse_offer_obj (fs : List (String × Json)) :
    parse_offer (.obj fs)
      = ((Json.obj fs).getItem "package" >>= parse_package).map (fun package =>
          { id := ((Json.obj fs).lookup "id").getD .null
            monetization_type := ((Json.obj fs).lookup "monetizationType").getD .null
            presentation_type := ((Json.obj fs).lookup "presentationType").getD .null
            price_string := ((Json.obj fs).lookup "retailPrice").getD .null
            price_value := ((Json.obj fs).lookup "retailPriceValue").getD .null
            price_currency := ((Json.obj fs).lookup "currency").getD .null
            last_change_retail_price_value :=
              ((Json.obj fs).lookup "lastChangeRetailPriceValue").getD .null
            type := ((Json.obj fs).lookup "type").getD .null
            package := package
            url := ((Json.obj fs).lookup "standardWebURL").getD .null
            element_count := ((Json.obj fs).lookup "elementCount").getD (.num 0)
            available_to := ((Json.obj fs).lookup "availableTo").getD .null
            deeplink_roku := ((Json.obj fs).lookup "deeplinkRoku").getD .null
            subtitle_languages := ((Json.obj fs).lookup "subtitleLanguages").getD .null
            video_technology := ((Json.obj fs).lookup "videoTechnology").getD .null
            audio_technology := ((Json.obj fs).lookup "audioTechnology").getD .null
            audio_languages := ((Json.obj fs).lookup "audioLanguages").getD .null }) := by
  cases hp : (Json.obj fs).getItem "package" >>= parse_package with
  | none =>
    unfold parse_offer
    rw [hp]
    rfl
  | some pkg =>
    unfold parse_offer
    rw [hp]
    rfl

/-- Inversion of the monadic bind of `Option` as used by the embedded
parsers. -/
theorem bind_eq_some_iff {α β : Type} (x : Option α) (f : α → Option β) (b : β) :
    (x >>= f) = some b ↔ ∃ a, x = some a ∧ f a = some b := by
  cases x <;> simp

/-- Each comprehension entry keeps the country it was built for as key. -/
theorem pofc_fst (node : Json) (c : String) (p : String × List Offer)
    (h : parse_offers_for_country node c = some p) : p.1 = c := by
  simp only [parse_offers_for_country, bind_eq_some_iff, Option.pure_def,
    Option.some.injEq] at h
  obtain ⟨f, hf, l, hl, offs, ho, hp⟩ := h
  rw [← hp]

/-- The keys of a fully parsed country list are the requested countries. -/
theorem mapM_pofc_keys (node : Json) :
    ∀ (cs : List String) (m : List (String × List Offer)),
      List.mapM (parse_offers_for_country node) cs = some m → m.map Prod.fst = cs := by
  intro cs
  induction cs with
  | nil =>
    intro m h
    rw [List.mapM_nil] at h
    simp only [Option.pure_def, Option.some.injEq] at h
    rw [← h]
    rfl
  | cons x xs ih =>
    intro m h
    rw [List.mapM_cons] at h
    simp only [bind_eq_some_iff, Option.pure_def, Option.some.injEq] at h
    obtain ⟨p, hp, rest, hrest, hm⟩ := h
    rw [← hm, List.map_cons, pofc_fst node x p hp, ih rest hrest]

/-- Every requested country is bound in the parsed mapping to the value
its own comprehension entry produced. -/
theorem mapM_pofc_mem (node : Json) :
    ∀ (cs : List String) (m : List (String × List Offer)) (c : String),
      List.mapM (parse_offers_for_country node) cs = some m → c ∈ cs →
      ∃ offs, (c, offs) ∈ m ∧ parse_offers_for_country node c = some (c, offs) := by
  intro cs
  induction cs with
  | nil => intro m c _ hc; exact absurd hc (List.not_mem_nil c)
  | cons x xs ih =>
    intro m c h hc
    rw [List.mapM_cons] at h
    simp only [bind_eq_some_iff, Option.pure_def, Option.some.injEq] at h
    obtain ⟨p, hp, rest, hrest, hm⟩ := h
    rcases List.mem_cons.mp hc with hcx | hcxs
    · subst hcx
      have hfst := pofc_fst node c p hp
      have hpe : p = (c, p.2) := by rw [← hfst]
      refine ⟨p.2, ?_, ?_⟩
      · rw [← hm, ← hpe]
        exact List.mem_cons_self p rest
      · rw [hp, ← hpe]
    · obtain ⟨offs, hmem, heq⟩ := ih rest c hrest hcxs
      exact ⟨offs, by rw [← hm]; exact List.mem_cons_of_mem p hmem, heq⟩

/-- On a dict node, a country is bound to the normalization of its
upper-cased field when present and to the empty list when absent. -/
theorem parse_offers_for_country_obj (fs : List (String × Json)) (c : String)
    (offs : List Offer)
    (h : parse_offers_for_country (.obj fs) c = some (c, offs)) :
    ((Json.obj fs).lookup (strUpper c) = none → offs = []) ∧
    (∀ v, (Json.obj fs).lookup (strUpper c) = some v →
      ∃ elems, v = .arr elems ∧ elems.mapM parse_offer = some offs) := by
  simp only [parse_offers_for_country, Json.dictGet, bind_eq_some_iff, Option.pure_def,
    Option.some.injEq, Prod.mk.injEq, true_and] at h
  obtain ⟨field, hfield, l, hl, o2, ho2, heq⟩ := h
  constructor
  · intro hnone
    rw [hnone] at hfield
    rw [← hfield] at hl
    simp only [Json.asArr, Option.getD, Option.some.injEq] at hl
    rw [← hl] at ho2
    rw [List.mapM_nil] at ho2
    simp only [Option.pure_def, Option.some.injEq] at ho2
    rw [← heq, ← ho2]
  · intro v hv
    rw [hv] at hfield
    rw [← hfield] at hl
    cases v with
    | arr elems =>
      simp only [Json.asArr, Option.getD, Option.some.injEq] at hl
      refine ⟨elems, rfl, ?_⟩
      rw [hl, ho2, heq]
    | null => exact Option.noConfusion hl
    | bool b => exact Option.noConfusion hl
    | num n => exact Option.noConfusion hl
    | str s => exact Option.noConfusion hl
    | obj fs2 => exact Option.noConfusion hl

/-- The value bound to a country is the parsed upper-cased field. -/
theorem pofc_offers (node : Json) (c : String) (offs : List Offer)
    (h : parse_offers_for_country node c = some (c, offs)) :
    (node.dictGet (strUpper c) (.arr []) >>= fun field =>
      field.asArr >>= fun l => List.mapM parse_offer l) = some offs := by
  simp only [parse_offers_for_country, bind_eq_some_iff, Option.pure_def,
    Option.some.injEq, Prod.mk.injEq, true_and] at h
  obtain ⟨field, hfield, l, hl, o2, ho2, heq⟩ := h
  simp only [bind_eq_some_iff]
  exact ⟨field, hfield, l, hl, heq ▸ ho2⟩

/-- A country entry block is the alias block surrounded by fixed trivia. -/
theorem entry_alias (code : String) :
    GRAPHQL_COUNTRY_OFFERS_ENTRY code
      = "\n      " ++ (alias_block code
          ++ " \x7b\n        ...TitleOffer\n        __typename\n      \x7d\n") := by
  have hsplit : (", platform: WEB, filter: $filter) \x7b\n        ...TitleOffer\n        __typename\n      \x7d\n" : String)
      = ", platform: WEB, filter: $filter)"
        ++ " \x7b\n        ...TitleOffer\n        __typename\n      \x7d\n" := by decide
  simp only [GRAPHQL_COUNTRY_OFFERS_ENTRY, alias_block, hsplit, String.append_assoc]

/-- The search request built for a valid code, with its explicit body. -/
theorem prepare_search_request_ok (title code language : String) (count : Int)
    (best_only : Bool) (h : code.length = 2) :
    prepare_search_request title code language count best_only
      = .ok (.obj
        [("operationName", .str "GetSearchTitles"),
         ("variables", .obj
           [("first", .num count),
            ("searchTitlesFilter", .obj [("searchQuery", .str title)]),
            ("language", .str language),
            ("country", .str (strUpper code)),
            ("formatPoster", .str "JPG"),
            ("formatOfferIcon", .str "PNG"),
            ("profile", .str "S718"),
            ("backdropProfile", .str "S1920"),
            ("filter", .obj [("bestOnly", .bool best_only)])]),
         ("query",
          .str (GRAPHQL_SEARCH_QUERY ++ GRAPHQL_DETAILS_FRAGMENT ++ GRAPHQL_OFFER_FRAGMENT))]) := by
  unfold prepare_search_request
  rw [assert_ok_of_len2 code h]

/-- The details request built for a valid code, with its explicit body. -/
theorem prepare_details_request_ok (node_id code language : String)
    (best_only : Bool) (h : code.length = 2) :
    prepare_details_request node_id code language best_only
      = .ok (.obj
        [("operationName", .str "GetTitleNode"),
         ("variables", .obj
           [("nodeId", .str node_id),
            ("language", .str language),
            ("country", .str (strUpper code)),
            ("formatPoster", .str "JPG"),
            ("formatOfferIcon", .str "PNG"),
            ("profile", .str "S718"),
            ("backdropProfile", .str "S1920"),
            ("filter", .obj [("bestOnly", .bool best_only)])]),
         ("query",
          .str (GRAPHQL_DETAILS_QUERY ++ GRAPHQL_DETAILS_FRAGMENT ++ GRAPHQL_OFFER_FRAGMENT))]) := by
  unfold prepare_details_request
  rw [assert_ok_of_len2 code h]

/-- The offers request built for valid codes, with its explicit body. -/
theorem prepare_offers_request_ok (node_id language : String) (best_only : Bool)
    (countries : List String) (hne : countries.isEmpty = false)
    (hall : ∀ c ∈ countries, c.length = 2) :
    prepare_offers_for_countries_request node_id countries language best_only
      = .ok (.obj
        [("operationName", .str "GetTitleOffers"),
         ("variables", .obj
           [("nodeId", .str node_id),
            ("language", .str language),
            ("formatPoster", .str "JPG"),
            ("formatOfferIcon", .str "PNG"),
            ("profile", .str "S718"),
            ("backdropProfile", .str "S1920"),
            ("filter", .obj [("bestOnly", .bool best_only)])]),
         ("query", .str (prepare_offers_for_countries_entry countries))]) := by
  unfold prepare_offers_for_countries_request
  rw [hne, assert_all_ok countries hall]
  rfl

/-! Claim theorems. -/

/-- C1: for every country code whose length is not exactly 2, each of the
three request builders fails with exactly the message
`Invalid country code: <code>, code must be 2 characters long` (before any
query text is built, no request object is produced); for every code of
length exactly 2 no such error is raised. -/
theorem country_code_length_validation (code : String) :
    (code.length ≠ 2 →
      (∀ (title language : String) (best_only : Bool) (count : Int),
        prepare_search_request title code language count best_only
          = .error ("Invalid country code: " ++ code ++ ", code must be 2 characters long")) ∧
      (∀ (node_id language : String) (best_only : Bool),
        prepare_details_request node_id code language best_only
          = .error ("Invalid country code: " ++ code ++ ", code must be 2 characters long")) ∧
      (∀ (node_id language : String) (best_only : Bool) (pre post : List String),
        (∀ c ∈ pre, c.length = 2) →
        prepare_offers_for_countries_request node_id (pre ++ code :: post) language best_only
          = .error ("Invalid country code: " ++ code ++ ", code must be 2 characters long"))) ∧
    (code.length = 2 →
      (∀ (title language : String) (best_only : Bool) (count : Int), ∃ req,
        prepare_search_request title code language count best_only = .ok req) ∧
      (∀ (node_id language : String) (best_only : Bool), ∃ req,
        prepare_details_request node_id code language best_only = .ok req) ∧
      (∀ (node_id language : String) (best_only : Bool) (countries : List String),
        code ∈ countries → (∀ c ∈ countries, c.length = 2) → ∃ req,
        prepare_offers_for_countries_request node_id countries language best_only = .ok req)) := by
  constructor
  · intro h
    refine ⟨fun title language best_only count => ?_,
      fun node_id language best_only => ?_,
      fun node_id language best_only pre post hpre => ?_⟩
    · simp [prepare_search_request, assert_error_of_len_ne2 code h, invalid_country_message]
    · simp [prepare_details_request, assert_error_of_len_ne2 code h, invalid_country_message]
    · have hne : (pre ++ code :: post).isEmpty = false := by
        cases pre <;> rfl
      simp [prepare_offers_for_countries_request, hne,
        assert_all_error code h pre post hpre, invalid_country_message]
  · intro h
    refine ⟨fun title language best_only count => ?_,
      fun node_id language best_only => ?_,
      fun node_id language best_only countries hmem hall => ?_⟩
    · exact ⟨_, by unfold prepare_search_request; rw [assert_ok_of_len2 code h]⟩
    · exact ⟨_, by unfold prepare_details_request; rw [assert_ok_of_len2 code h]⟩
    · have hne : countries.isEmpty = false := by
        cases countries with
        | nil => simp at hmem
        | cons x xs => rfl
      exact ⟨_, by
        unfold prepare_offers_for_countries_request
        rw [hne, assert_all_ok countries hall]
        rfl⟩

/-- Witness for C1 at the overlong code `usa` and the valid code `us`. -/
theorem country_code_length_validation_witness :
    (prepare_search_request "title" "usa" "en" 5 true
      = .error ("Invalid country code: " ++ "usa" ++ ", code must be 2 characters long")) ∧
    (∃ req, prepare_search_request "title" "us" "en" 5 true = .ok req) :=
  ⟨((country_code_length_validation "usa").1 (by decide)).1 "title" "en" true 5,
   ((country_code_length_validation "us").2 (by decide)).1 "title" "en" true 5⟩

/-- C9: requesting offers for an empty countries set fails with a dedicated
message (no query string is assembled), and that message differs from the
per-code length-validation message for every code. -/
theorem empty_countries_validation (node_id language : String) (best_only : Bool) :
    prepare_offers_for_countries_request node_id [] language best_only
      = .error empty_countries_message ∧
    ∀ code : String, empty_countries_message ≠ invalid_country_message code := by
  refine ⟨rfl, fun code h => ?_⟩
  exact invalid_message_ne_empty_message code h.symm

/-- C3 counterexample: on a document whose `data.popularTitles` object has
no `edges` key, `parse_search_response` raises (the embedded function
returns `none`, the exception value) instead of returning the empty
sequence claimed for the absent-`edges` case. -/
theorem parse_search_response_missing_edges_cex :
    parse_search_response (.obj [("data", .obj [("popularTitles", .obj [])])]) = none ∧
    parse_search_response (.obj [("data", .obj [("popularTitles", .obj [])])])
      ≠ some [] := by
  refine ⟨rfl, ?_⟩
  intro h
  rw [show parse_search_response (.obj [("data", .obj [("popularTitles", .obj [])])])
      = none from rfl] at h
  exact Option.noConfusion h

/-- C3 amended: when `data.popularTitles.edges` is present and is an empty
array, `parse_search_response` returns the empty sequence and no error;
when the `edges` key is absent, a lookup error is raised. -/
theorem parse_search_response_empty_edges (j d pt : Json)
    (hd : j.getItem "data" = some d)
    (hpt : d.getItem "popularTitles" = some pt) :
    (pt.getItem "edges" = some (.arr []) → parse_search_response j = some []) ∧
    (pt.getItem "edges" = none → parse_search_response j = none) := by
  refine ⟨fun he => ?_, fun he => ?_⟩
  · simp [parse_search_response, hd, hpt, he]
    rfl
  · simp [parse_search_response, hd, hpt, he]

/-- Witness for C3 at a concrete empty-edges document. -/
theorem parse_search_response_empty_edges_witness :
    parse_search_response
      (.obj [("data", .obj [("popularTitles", .obj [("edges", .arr [])])])]) = some [] :=
  (parse_search_response_empty_edges
    (.obj [("data", .obj [("popularTitles", .obj [("edges", .arr [])])])])
    (.obj [("popularTitles", .obj [("edges", .arr [])])])
    (.obj [("edges", .arr [])]) rfl rfl).1 rfl

/-- C4: `parse_details_response` returns the explicit absence value (Python
`None`, here the inner `none`) exactly when the top-level document has an
`errors` key, and raises no error in that case; otherwise it returns the
normalization of `data.node`. -/
theorem parse_details_response_errors_key (j : Json) :
    (parse_details_response j = some none ↔ j.hasKey "errors" = true) ∧
    (j.hasKey "errors" = false →
      parse_details_response j
        = ((j.getItem "data").bind (fun d => (d.getItem "node").bind parse_entry)).map some) := by
  constructor
  · constructor
    · intro h
      cases hkv : j.hasKey "errors" with
      | true => rfl
      | false =>
        simp [parse_details_response, hkv, Option.bind_eq_some, Option.map_eq_some'] at h
    · intro hk
      simp [parse_details_response, hk]
  · intro hk
    simp [parse_details_response, hk]

/-- Witness for C4: a document with an `errors` key maps to the absence
value; an errors-free document is parsed from `data.node`. -/
theorem parse_details_response_errors_key_witness :
    parse_details_response (.obj [("errors", .arr [])]) = some none ∧
    parse_details_response (.obj [("data", .obj [("node", .null)])])
      = (((Json.obj [("data", .obj [("node", .null)])]).getItem "data").bind
          (fun d => (d.getItem "node").bind parse_entry)).map some :=
  ⟨(parse_details_response_errors_key (.obj [("errors", .arr [])])).1.mpr rfl,
   (parse_details_response_errors_key (.obj [("data", .obj [("node", .null)])])).2 rfl⟩

/-- C8: for every offer document accepted by `_parse_offer`, the
`element_count` field equals the `elementCount` value when present and
`0` when absent, while the nullable scalar fields `price_string`,
`price_value`, `last_change_retail_price_value`, `available_to` and
`deeplink_roku` equal their JSON value when present and null when absent
(no other numeric defaulting). -/
theorem offer_scalar_defaults (j : Json) (o : Offer) (h : parse_offer j = some o) :
    o.element_count = ((j.lookup "elementCount").getD (.num 0)) ∧
    o.price_string = ((j.lookup "retailPrice").getD .null) ∧
    o.price_value = ((j.lookup "retailPriceValue").getD .null) ∧
    o.last_change_retail_price_value = ((j.lookup "lastChangeRetailPriceValue").getD .null) ∧
    o.available_to = ((j.lookup "availableTo").getD .null) ∧
    o.deeplink_roku = ((j.lookup "deeplinkRoku").getD .null) := by
  cases j with
  | obj fs =>
    rw [parse_offer_obj] at h
    rcases Option.map_eq_some'.mp h with ⟨pkg, _, ho⟩
    rw [← ho]
    exact ⟨rfl, rfl, rfl, rfl, rfl, rfl⟩
  | null => exact Option.noConfusion h
  | bool b => exact Option.noConfusion h
  | num n => exact Option.noConfusion h
  | str s => exact Option.noConfusion h
  | arr elems => exact Option.noConfusion h

/-- Witness for C8 at a minimal offer document with every scalar absent. -/
theorem offer_scalar_defaults_witness :
    parse_offer sample_offer_json = some sample_offer ∧
    sample_offer.element_count = Json.num 0 ∧
    sample_offer.price_string = Json.null ∧
    sample_offer.deeplink_roku = Json.null :=
  ⟨rfl,
   (offer_scalar_defaults sample_offer_json sample_offer rfl).1,
   (offer_scalar_defaults sample_offer_json sample_offer rfl).2.1,
   (offer_scalar_defaults sample_offer_json sample_offer rfl).2.2.2.2.2⟩

/-- C2: when `data.node` is an object and parsing succeeds, every requested
country appears as a key of the result: a country whose upper-cased code is
a field of `data.node` is bound to the `_parse_offer` normalization of that
field, an absent country is bound to the empty list (never omitted), and no
key outside the requested countries appears. -/
theorem offers_by_country_mapping (j d node : Json) (fs : List (String × Json))
    (countries : List String) (m : List (String × List Offer))
    (hd : j.getItem "data" = some d)
    (hn : d.getItem "node" = some node)
    (hnode : node = .obj fs)
    (h : parse_offers_for_countries_response j countries = some m) :
    m.map Prod.fst = countries ∧
    (∀ c ∈ countries, ∃ offs, (c, offs) ∈ m ∧
      ((node.lookup (strUpper c) = none → offs = []) ∧
       (∀ v, node.lookup (strUpper c) = some v →
         ∃ elems, v = .arr elems ∧ elems.mapM parse_offer = some offs))) ∧
    (∀ p ∈ m, p.1 ∈ countries) := by
  subst hnode
  have hmap : List.mapM (parse_offers_for_country (.obj fs)) countries = some m := by
    simp only [parse_offers_for_countries_response, hd, hn, bind_eq_some_iff,
      Option.some.injEq] at h
    obtain ⟨d2, hd2, n2, hn2, hmm⟩ := h
    rw [← hd2] at hn2
    have h3 := hn.symm.trans hn2
    injection h3 with h4
    rw [h4]
    exact hmm
  refine ⟨mapM_pofc_keys _ countries m hmap, ?_, ?_⟩
  · intro c hc
    obtain ⟨offs, hmem, heq⟩ := mapM_pofc_mem _ countries m c hmap hc
    exact ⟨offs, hmem, parse_offers_for_country_obj fs c offs heq⟩
  · intro p hp
    have hk := mapM_pofc_keys _ countries m hmap
    rw [← hk]
    exact List.mem_map_of_mem Prod.fst hp

/-- Witness for C2: requesting `US` and `GB` against a document that only
has a `US` field yields `US` bound to the parsed offer and `GB` bound to
the empty list. -/
theorem offers_by_country_mapping_witness :
    parse_offers_for_countries_response
      (.obj [("data", .obj [("node", .obj [("US", .arr [sample_offer_json])])])])
      ["US", "GB"] = some [("US", [sample_offer]), ("GB", [])] ∧
    ([("US", [sample_offer]), ("GB", [])].map Prod.fst = ["US", "GB"]) :=
  ⟨rfl,
   (offers_by_country_mapping
      (.obj [("data", .obj [("node", .obj [("US", .arr [sample_offer_json])])])])
      (.obj [("node", .obj [("US", .arr [sample_offer_json])])])
      (.obj [("US", .arr [sample_offer_json])])
      [("US", .arr [sample_offer_json])]
      ["US", "GB"]
      [("US", [sample_offer]), ("GB", [])]
      rfl rfl rfl rfl).1⟩

/-- C10: the keys of the mapping returned by
`parse_offers_for_countries_response` are the caller's country codes with
their original letter case, while each value comes from looking up the
upper-cased code in `data.node`. -/
theorem offers_by_country_key_case (j d node : Json) (countries : List String)
    (m : List (String × List Offer))
    (hd : j.getItem "data" = some d)
    (hn : d.getItem "node" = some node)
    (h : parse_offers_for_countries_response j countries = some m) :
    m.map Prod.fst = countries ∧
    ∀ c ∈ countries, ∃ offs, (c, offs) ∈ m ∧
      (node.dictGet (strUpper c) (.arr []) >>= fun field =>
        field.asArr >>= fun l => List.mapM parse_offer l) = some offs := by
  have hmap : List.mapM (parse_offers_for_country node) countries = some m := by
    simp only [parse_offers_for_countries_response, hd, hn, bind_eq_some_iff,
      Option.some.injEq] at h
    obtain ⟨d2, hd2, n2, hn2, hmm⟩ := h
    rw [← hd2] at hn2
    have h3 := hn.symm.trans hn2
    injection h3 with h4
    rw [h4]
    exact hmm
  refine ⟨mapM_pofc_keys _ countries m hmap, ?_⟩
  intro c hc
  obtain ⟨offs, hmem, heq⟩ := mapM_pofc_mem _ countries m c hmap hc
  exact ⟨offs, hmem, pofc_offers node c offs heq⟩

/-- Witness for C10: requesting the lower-case code `us` yields the key
`us` populated from the upper-case JSON field `US`. -/
theorem offers_by_country_key_case_witness :
    parse_offers_for_countries_response
      (.obj [("data", .obj [("node", .obj [("US", .arr [sample_offer_json])])])])
      ["us"] = some [("us", [sample_offer])] ∧
    ([("us", [sample_offer])].map Prod.fst = ["us"]) :=
  ⟨rfl,
   (offers_by_country_key_case
      (.obj [("data", .obj [("node", .obj [("US", .arr [sample_offer_json])])])])
      (.obj [("node", .obj [("US", .arr [sample_offer_json])])])
      (.obj [("US", .arr [sample_offer_json])])
      ["us"]
      [("us", [sample_offer])]
      rfl rfl rfl).1⟩

set_option maxRecDepth 40000

/-- C7 counterexample: with set iteration order `US, GB`, the emitted query
text has the `US` alias block strictly before the `GB` one although `GB` is
lexicographically smaller than `US`, so the blocks are not emitted in
sorted order of the upper-cased codes. -/
theorem offers_query_not_sorted_cex :
    firstOccurIdxStr (alias_block "US")
        (prepare_offers_for_countries_entry ["US", "GB"]) = some 185 ∧
    firstOccurIdxStr (alias_block "GB")
        (prepare_offers_for_countries_entry ["US", "GB"]) = some 300 ∧
    (185 : Nat) < 300 ∧ ("GB".data < "US".data) :=
  ⟨by decide, by decide, by decide, by decide⟩

/-- C7 amended: the per-country blocks are emitted one per country in the
iteration order of the countries set — no sorting is applied, so two
iteration orders of the same two distinct valid codes produce different
query texts. -/
theorem offers_query_emission_order (countries : List String) :
    prepare_offers_for_countries_entry countries
      = GRAPHQL_OFFERS_BY_COUNTRY_QUERY
          (joinSep "\n" (countries.map (fun c => GRAPHQL_COUNTRY_OFFERS_ENTRY (strUpper c))))
        ++ GRAPHQL_OFFER_FRAGMENT ∧
    (∀ c1 c2 : String, c1.length = 2 → c2.length = 2 → strUpper c1 ≠ strUpper c2 →
      prepare_offers_for_countries_entry [c1, c2]
        ≠ prepare_offers_for_countries_entry [c2, c1]) := by
  refine ⟨rfl, ?_⟩
  intro c1 c2 h1 h2 hne heq
  have hd := congrArg String.data heq
  simp only [prepare_offers_for_countries_entry, GRAPHQL_OFFERS_BY_COUNTRY_QUERY, joinSep,
    List.map, String.data_append, List.append_assoc] at hd
  have hcancel := List.append_cancel_left hd
  have hu1 : (strUpper c1).data.length = 2 := by
    show (c1.data.map Char.toUpper).length = 2
    rw [List.length_map]
    exact h1
  have hu2 : (strUpper c2).data.length = 2 := by
    show (c2.data.map Char.toUpper).length = 2
    rw [List.length_map]
    exact h2
  have hlen : (GRAPHQL_COUNTRY_OFFERS_ENTRY (strUpper c1)).data.length
      = (GRAPHQL_COUNTRY_OFFERS_ENTRY (strUpper c2)).data.length := by
    rw [country_entry_data_length, country_entry_data_length, hu1, hu2]
  have hentry := (List.append_inj hcancel hlen).1
  exact hne (country_entry_inj (String.ext hentry))

/-- Witness for C7 at the two-element orders `US, GB` and `GB, US`. -/
theorem offers_query_emission_order_witness :
    prepare_offers_for_countries_entry ["US"]
      = GRAPHQL_OFFERS_BY_COUNTRY_QUERY
          (joinSep "\n" (["US"].map (fun c => GRAPHQL_COUNTRY_OFFERS_ENTRY (strUpper c))))
        ++ GRAPHQL_OFFER_FRAGMENT ∧
    prepare_offers_for_countries_entry ["US", "GB"]
      ≠ prepare_offers_for_countries_entry ["GB", "US"] :=
  ⟨(offers_query_emission_order ["US"]).1,
   (offers_query_emission_order ["US", "GB"]).2 "US" "GB"
     (by decide) (by decide) (by decide)⟩

/-- C6: for a non-empty set of valid country codes (no two equal after
upper-casing), the emitted per-country entries contain exactly one block
per requested country, the query text is that entry sequence spliced into
the main body with the offer fragment appended once after the loop, and no
entry contains a copy of the fragment; on the concrete set `US, GB` the
`US` and `GB` alias blocks and the fragment each occur exactly once in the
final query string. -/
theorem offers_query_one_block_per_country :
    (∀ countries : List String, countries ≠ [] →
      (∀ c ∈ countries, c.length = 2) →
      (countries.map strUpper).Nodup →
      (∀ c ∈ countries,
        (countries.map (fun x => GRAPHQL_COUNTRY_OFFERS_ENTRY (strUpper x))).count
            (GRAPHQL_COUNTRY_OFFERS_ENTRY (strUpper c)) = 1) ∧
      prepare_offers_for_countries_entry countries
        = GRAPHQL_OFFERS_BY_COUNTRY_QUERY
            (joinSep "\n" (countries.map (fun x => GRAPHQL_COUNTRY_OFFERS_ENTRY (strUpper x))))
          ++ GRAPHQL_OFFER_FRAGMENT ∧
      (∀ c ∈ countries,
        countOccurStr GRAPHQL_OFFER_FRAGMENT (GRAPHQL_COUNTRY_OFFERS_ENTRY (strUpper c)) = 0)) ∧
    (countOccurStr (alias_block "US") (prepare_offers_for_countries_entry ["US", "GB"]) = 1 ∧
     countOccurStr (alias_block "GB") (prepare_offers_for_countries_entry ["US", "GB"]) = 1 ∧
     countOccurStr GRAPHQL_OFFER_FRAGMENT (prepare_offers_for_countries_entry ["US", "GB"]) = 1) := by
  constructor
  · intro countries _ hval hnodup
    refine ⟨?_, rfl, ?_⟩
    · intro c hc
      rw [show (countries.map fun x => GRAPHQL_COUNTRY_OFFERS_ENTRY (strUpper x))
          = (countries.map strUpper).map GRAPHQL_COUNTRY_OFFERS_ENTRY from
        (List.map_map GRAPHQL_COUNTRY_OFFERS_ENTRY strUpper countries).symm]
      rw [List.count_map_of_injective _ _ country_entry_inj]
      exact List.count_eq_one_of_mem hnodup (List.mem_map_of_mem strUpper hc)
    · intro c hc
      apply countOccur_eq_zero_of_lt
      rw [country_entry_data_length]
      have hu : (strUpper c).data.length = 2 := by
        show (c.data.map Char.toUpper).length = 2
        rw [List.length_map]
        exact hval c hc
      rw [hu]
      decide
  · exact ⟨by decide, by decide, by decide⟩

/-- Witness for C6 at the concrete countries set `US, GB`. -/
theorem offers_query_one_block_per_country_witness :
    (["US", "GB"].map (fun x => GRAPHQL_COUNTRY_OFFERS_ENTRY (strUpper x))).count
        (GRAPHQL_COUNTRY_OFFERS_ENTRY (strUpper "US")) = 1 ∧
    prepare_offers_for_countries_entry ["US", "GB"]
      = GRAPHQL_OFFERS_BY_COUNTRY_QUERY
          (joinSep "\n" (["US", "GB"].map (fun x => GRAPHQL_COUNTRY_OFFERS_ENTRY (strUpper x))))
        ++ GRAPHQL_OFFER_FRAGMENT :=
  ⟨(offers_query_one_block_per_country.1 ["US", "GB"]
      (by decide) (by decide) (by decide)).1 "US" (by decide),
   (offers_query_one_block_per_country.1 ["US", "GB"]
      (by decide) (by decide) (by decide)).2.1⟩

/-- C5: for every valid 2-character country code in any letter case, each
builder accepts the request, the `country` variable (for search/details) is
the upper-cased input code, `variables.filter.bestOnly` equals the
`best_only` argument, the four constant image variables are always present
with their fixed values, and (for the offers builder) the query text
carries the aliased block of the upper-cased code. -/
theorem request_variables (code : String) (h : code.length = 2) :
    (∀ (title language : String) (count : Int) (best_only : Bool),
      ∃ req, prepare_search_request title code language count best_only = .ok req ∧
        ∃ vars, req.getItem "variables" = some vars ∧
          vars.getItem "country" = some (.str (strUpper code)) ∧
          vars.getItem "formatPoster" = some (.str "JPG") ∧
          vars.getItem "formatOfferIcon" = some (.str "PNG") ∧
          vars.getItem "profile" = some (.str "S718") ∧
          vars.getItem "backdropProfile" = some (.str "S1920") ∧
          ∃ filt, vars.getItem "filter" = some filt ∧
            filt.getItem "bestOnly" = some (.bool best_only)) ∧
    (∀ (node_id language : String) (best_only : Bool),
      ∃ req, prepare_details_request node_id code language best_only = .ok req ∧
        ∃ vars, req.getItem "variables" = some vars ∧
          vars.getItem "country" = some (.str (strUpper code)) ∧
          vars.getItem "formatPoster" = some (.str "JPG") ∧
          vars.getItem "formatOfferIcon" = some (.str "PNG") ∧
          vars.getItem "profile" = some (.str "S718") ∧
          vars.getItem "backdropProfile" = some (.str "S1920") ∧
          ∃ filt, vars.getItem "filter" = some filt ∧
            filt.getItem "bestOnly" = some (.bool best_only)) ∧
    (∀ (node_id language : String) (best_only : Bool) (countries : List String),
      code ∈ countries → (∀ c ∈ countries, c.length = 2) →
      ∃ req, prepare_offers_for_countries_request node_id countries language best_only
          = .ok req ∧
        (∃ vars, req.getItem "variables" = some vars ∧
          vars.getItem "formatPoster" = some (.str "JPG") ∧
          vars.getItem "formatOfferIcon" = some (.str "PNG") ∧
          vars.getItem "profile" = some (.str "S718") ∧
          vars.getItem "backdropProfile" = some (.str "S1920") ∧
          ∃ filt, vars.getItem "filter" = some filt ∧
            filt.getItem "bestOnly" = some (.bool best_only)) ∧
        ∃ a b, req.getItem "query"
          = some (.str (a ++ (alias_block (strUpper code) ++ b)))) := by
  refine ⟨fun title language count best_only => ?_,
    fun node_id language best_only => ?_,
    fun node_id language best_only countries hmem hall => ?_⟩
  · exact ⟨_, prepare_search_request_ok title code language count best_only h,
      _, rfl, rfl, rfl, rfl, rfl, rfl, _, rfl, rfl⟩
  · exact ⟨_, prepare_details_request_ok node_id code language best_only h,
      _, rfl, rfl, rfl, rfl, rfl, rfl, _, rfl, rfl⟩
  · have hne : countries.isEmpty = false := by
      cases countries with
      | nil => simp at hmem
      | cons x xs => rfl
    obtain ⟨a0, b0, hj⟩ := joinSep_mem_decomp "\n"
      (countries.map fun c => GRAPHQL_COUNTRY_OFFERS_ENTRY (strUpper c))
      (GRAPHQL_COUNTRY_OFFERS_ENTRY (strUpper code))
      (List.mem_map_of_mem (fun c => GRAPHQL_COUNTRY_OFFERS_ENTRY (strUpper c)) hmem)
    have hdecomp : prepare_offers_for_countries_entry countries
        = ("\nquery GetTitleOffers(\n  $nodeId: ID!,\n  $language: Language!,\n  $formatOfferIcon: ImageFormat,\n  $filter: OfferFilter!,\n) \x7b\n  node(id: $nodeId) \x7b\n    ... on MovieOrShow \x7b\n      "
            ++ a0 ++ "\n      ")
          ++ (alias_block (strUpper code)
            ++ (" \x7b\n        ...TitleOffer\n        __typename\n      \x7d\n"
              ++ (b0 ++ ("\n      __typename\n    \x7d\n    __typename\n  \x7d\n  __typename\n\x7d\n"
                ++ GRAPHQL_OFFER_FRAGMENT)))) := by
      simp only [prepare_offers_for_countries_entry, GRAPHQL_OFFERS_BY_COUNTRY_QUERY]
      rw [hj, entry_alias]
      simp only [String.append_assoc]
    refine ⟨_, prepare_offers_request_ok node_id language best_only countries hne hall,
      ⟨_, rfl, rfl, rfl, rfl, rfl, _, rfl, rfl⟩, ?_⟩
    refine ⟨"\nquery GetTitleOffers(\n  $nodeId: ID!,\n  $language: Language!,\n  $formatOfferIcon: ImageFormat,\n  $filter: OfferFilter!,\n) \x7b\n  node(id: $nodeId) \x7b\n    ... on MovieOrShow \x7b\n      "
        ++ a0 ++ "\n      ",
      " \x7b\n        ...TitleOffer\n        __typename\n      \x7d\n"
        ++ (b0 ++ ("\n      __typename\n    \x7d\n    __typename\n  \x7d\n  __typename\n\x7d\n"
          ++ GRAPHQL_OFFER_FRAGMENT)), ?_⟩
    show some (Json.str (prepare_offers_for_countries_entry countries)) = _
    rw [hdecomp]

/-- Witness for C5 at the lower-case valid code `us`. -/
theorem request_variables_witness :
    ∃ req, prepare_search_request "matrix" "us" "en" 4 true = .ok req ∧
      ∃ vars, req.getItem "variables" = some vars ∧
        vars.getItem "country" = some (.str (strUpper "us")) ∧
        vars.getItem "formatPoster" = some (.str "JPG") ∧
        vars.getItem "formatOfferIcon" = some (.str "PNG") ∧
        vars.getItem "profile" = some (.str "S718") ∧
        vars.getItem "backdropProfile" = some (.str "S1920") ∧
        ∃ filt, vars.getItem "filter" = some filt ∧
          filt.getItem "bestOnly" = some (.bool true) :=
  (request_variables "us" (by decide)).1 "matrix" "en" 4 true

end JustWatch
